import Mathlib

/-!
# AstraByte-backend — credential & session management, shallow embedding

A shallow embedding of the auth subsystem of the AstraByte backend
(`AuthService`, its Prisma-backed stores, and the relevant pieces of
`AuthController` / `ErrorFilter`), together with theorems settling the
frozen claims about it.

Conventions of the embedding:
* Database rows (`users`, `accounts` tables of the Prisma schema) are plain
  structures; the database is a pair of lists plus serial-id counters.
* `async` methods become functions `Db → Except Err α × Db` (explicit state
  passing); thrown exceptions become `Except.error`.
* NestJS exception classes and generic JavaScript runtime errors
  (`TypeError`, crypto errors, `JsonWebTokenError`, Prisma errors) are the
  constructors of `Err`; `catch (error)` blocks with `instanceof` tests
  become pattern matches on `Err`.
* External libraries (bcryptjs, `JwtService`, node `crypto` block cipher)
  and configuration values are abstracted into the `Ext` structure; their
  contracts (e.g. bcrypt compare/hash agreement, cipher round trip) enter
  theorems as hypotheses at the points where they are used.
* Logging is a no-op, EXCEPT where a logger argument dereferences a value
  that can be `null` at that point — in JavaScript that raises a
  `TypeError` before the surrounding statement completes, which several
  `AuthService` methods do (noted at each spot below); those dereferences
  are modelled as `Err.jsError`.
-/

deriving instance DecidableEq for Except

namespace AstraByte

/-- A row of the `users` table (Prisma model `User`): serial id, name,
unique email, nullable password hash, nullable hashed refresh token,
nullable image, role (`ADMIN` | `CUSTOMER`, default `CUSTOMER`),
timestamps (abstracted to `Nat`). -/
structure User where
  id : Nat
  name : String
  email : String
  password : Option String
  refreshToken : Option String
  image : Option String
  role : String
  createdAt : Nat
  updatedAt : Nat
deriving Repr, DecidableEq

/-- A row of the `accounts` table (Prisma model `Account`, the OAuth link):
serial id, owning user id, provider, provider account id (the pair is
unique), nullable provider refresh token. -/
structure Account where
  id : Nat
  userId : Nat
  provider : String
  providerAccountId : String
  refreshToken : Option String
  createdAt : Nat
  updatedAt : Nat
deriving Repr, DecidableEq

/-- The persistent store backing `PrismaService`: the two tables plus the
next serial ids. -/
structure Db where
  users : List User
  accounts : List Account
  nextUserId : Nat
  nextAccountId : Nat
deriving Repr, DecidableEq

/-- The payload `{ id, email, role }` signed into access and refresh
tokens by `JwtService.sign`. -/
structure JwtPayload where
  id : Nat
  email : String
  role : String
deriving Repr, DecidableEq

/-- External collaborators and configuration of `AuthService`:
bcryptjs (`bhash` = `bcrypt.hash` with its salt abstracted away,
`bcompare` = `bcrypt.compare`), `JwtService` (`jwtSign` takes the payload,
the issuance time — the `iat` claim — the secret and the `expiresIn`
option; `jwtVerify` returns `none` where the library throws), the node
`crypto` block cipher (`encBlock` / `decBlock`, keyed by algorithm, key
and IV, `decBlock = none` where the library throws), the configured
secrets (`JWT_ACCESS_SECRET`, `JWT_REFRESH_SECRET`, `CRYPTO_ALGORITHM`,
`CRYPTO_SECRET_KEY`, `INITIAL_VECTOR`, `FRONTEND_URL`), and the
`z.string().email()` predicate of zod. Note that `Ext` contains no source
of randomness: the source never calls one in the modelled code; in
particular `AuthService.encrypt` reads its IV from configuration. -/
structure Ext where
  bhash : String → String
  bcompare : String → String → Bool
  jwtSign : JwtPayload → Nat → String → String → String
  jwtVerify : String → String → Option JwtPayload
  encBlock : String → String → String → String → String
  decBlock : String → String → String → String → Option String
  jwtAccessSecret : String
  jwtRefreshSecret : String
  cryptoAlgorithm : String
  cryptoSecretKey : String
  initialVector : String
  frontendUrl : String
  isEmail : String → Bool

/-- Errors crossing the embedded functions: the NestJS exception classes
thrown by the source (`zod` = `ZodError`, `badRequest` =
`BadRequestException`, `unauthorized` = `UnauthorizedException`,
`notFound` = `NotFoundException`, `internal` =
`InternalServerErrorException`) and `jsError` for generic JavaScript
runtime errors (`TypeError` from a null dereference, node crypto errors,
`JsonWebTokenError`, Prisma client errors). -/
inductive Err where
  | zod (msg : String)
  | badRequest (msg : String)
  | unauthorized (msg : String)
  | notFound (msg : String)
  | internal (msg : String)
  | jsError (msg : String)
deriving Repr, DecidableEq

/-! ## Prisma collaborator operations -/

/-- `prismaService.user.findUnique({ where: { email } })`. -/
def Db.findUserByEmail? (db : Db) (email : String) : Option User :=
  db.users.find? (fun u => u.email == email)

/-- `prismaService.user.findUnique({ where: { id } })`. -/
def Db.findUserById? (db : Db) (id : Nat) : Option User :=
  db.users.find? (fun u => u.id == id)

/-- `prismaService.user.count({ where: { email } })`. -/
def Db.countUsersByEmail (db : Db) (email : String) : Nat :=
  (db.users.filter (fun u => u.email == email)).length

/-- `prismaService.account.findUnique({ where: { provider_providerAccountId } })`. -/
def Db.findAccount? (db : Db) (provider providerAccountId : String) : Option Account :=
  db.accounts.find?
    (fun a => a.provider == provider && a.providerAccountId == providerAccountId)

/-- `prismaService.user.create({ data: { name, email, password } })` (and,
with different optional fields, the nested user create inside
`account.create`): assigns the next serial id, role defaults to
`CUSTOMER`, unset columns are null, timestamps are set to `now`. -/
def Db.createUser (db : Db) (name email : String)
    (password image refreshToken : Option String) (now : Nat) : User × Db :=
  let u : User :=
    { id := db.nextUserId, name := name, email := email, password := password
      refreshToken := refreshToken, image := image, role := "CUSTOMER"
      createdAt := now, updatedAt := now }
  (u, { db with users := db.users ++ [u], nextUserId := db.nextUserId + 1 })

/-- `prismaService.user.update({ where: { email }, data: { refreshToken } })`;
`none` models the Prisma "record not found" error (P2025) thrown when no
row matches. The `@updatedAt` column is refreshed. -/
def Db.updateUserRefreshTokenByEmail (db : Db) (email : String)
    (rt : Option String) (now : Nat) : Option Db :=
  if db.users.any (fun u => u.email == email) then
    some { db with
            users := db.users.map (fun u =>
              if u.email == email then { u with refreshToken := rt, updatedAt := now }
              else u) }
  else none

/-- `prismaService.user.update({ where: { id }, data: { refreshToken } })`;
`none` models the Prisma "record not found" error. -/
def Db.updateUserRefreshTokenById (db : Db) (id : Nat)
    (rt : Option String) (now : Nat) : Option Db :=
  if db.users.any (fun u => u.id == id) then
    some { db with
            users := db.users.map (fun u =>
              if u.id == id then { u with refreshToken := rt, updatedAt := now }
              else u) }
  else none

/-- `prismaService.account.create` with the nested `user: { create: ... }`
used by `AuthService.validate` (lines 184–197): atomically creates the
user row (email, name, image; no password) and the account row linked to
it. -/
def Db.createAccountWithUser (db : Db) (email name image : String)
    (provider providerAccountId : String) (providerRefreshToken : Option String)
    (now : Nat) : Account × Db :=
  let (u, db1) := db.createUser name email none (some image) none now
  let a : Account :=
    { id := db1.nextAccountId, userId := u.id, provider := provider
      providerAccountId := providerAccountId, refreshToken := providerRefreshToken
      createdAt := now, updatedAt := now }
  (a, { db1 with accounts := db1.accounts ++ [a]
                 nextAccountId := db1.nextAccountId + 1 })

/-! ## Request DTOs and zod validation schemas (`auth.validation.ts`) -/

/-- `RegisterAuthRequest` (fields of `AuthValidation.REGISTER`). -/
structure RegisterAuthRequest where
  name : String
  email : String
  password : String
deriving Repr, DecidableEq

/-- `LoginAuthRequest` (fields of `AuthValidation.LOGIN`). -/
structure LoginAuthRequest where
  email : String
  password : String
deriving Repr, DecidableEq

/-- `ValidateAuthRequest` (fields of `AuthValidation.VALIDATEUSER`). -/
structure ValidateAuthRequest where
  email : String
  name : String
  image : String
  emailVerified : Option Bool
  accessToken : String
  refreshToken : Option String
  provider : String
  providerAccountId : String
deriving Repr, DecidableEq

/-- `AuthValidation.REGISTER`: name min 1, valid email, password min 8
with at least one uppercase letter and one digit. -/
def validREGISTER (ext : Ext) (r : RegisterAuthRequest) : Bool :=
  decide (1 ≤ r.name.length) && ext.isEmail r.email
    && decide (8 ≤ r.password.length)
    && r.password.data.any (fun c => c.isUpper)
    && r.password.data.any (fun c => c.isDigit)

/-- `AuthValidation.LOGIN`: valid email, password min 8. -/
def validLOGIN (ext : Ext) (r : LoginAuthRequest) : Bool :=
  ext.isEmail r.email && decide (8 ≤ r.password.length)

/-- `AuthValidation.VALIDATEUSER`: valid email; name, image, accessToken,
provider, providerAccountId min 1; refreshToken optional min 1. -/
def validVALIDATEUSER (ext : Ext) (r : ValidateAuthRequest) : Bool :=
  ext.isEmail r.email && decide (1 ≤ r.name.length)
    && decide (1 ≤ r.image.length)
    && decide (1 ≤ r.accessToken.length)
    && (match r.refreshToken with
        | some rt => decide (1 ≤ rt.length)
        | none => true)
    && decide (1 ≤ r.provider.length)
    && decide (1 ≤ r.providerAccountId.length)

/-! ## Responses -/

/-- `UserResponse` (`models/user.model.ts`): the profile DTO returned by
the auth flows; `accessToken` / `refreshToken` are optional and only set
by the flows that authenticate. Timestamps are carried through from the
row (`toISOString` abstracted to the numeric timestamp). -/
structure UserResponse where
  id : Nat
  name : String
  email : String
  accessToken : Option String
  refreshToken : Option String
  image : Option String
  role : String
  createdAt : Nat
  updatedAt : Nat
deriving Repr, DecidableEq

/-- The object literal returned by `AuthService.generateNewAccessToken` on
success: `{ accessToken: newAccessToken }` — nothing else. -/
structure NewTokenResponse where
  accessToken : String
deriving Repr, DecidableEq

/-! ## Token helpers of `AuthService` -/

/-- `AuthService.generateAccessToken` (lines 534–560): guards on falsy
arguments (`!userId` is true for the number 0), then
`jwtService.sign({ id, email, role }, { secret: JWT_ACCESS_SECRET,
expiresIn: '15m' })`; `now` is the signing time entering the `iat`
claim. -/
def generateAccessToken (ext : Ext) (now : Nat) (userId : Nat)
    (email role : String) : Except Err String :=
  if userId == 0 || email == "" || role == "" then
    .error (.badRequest "User ID or email or role is missing")
  else
    .ok (ext.jwtSign { id := userId, email := email, role := role } now
          ext.jwtAccessSecret "15m")

/-- `AuthService.generateRefreshToken` (lines 562–588): same guard, signs
with `JWT_REFRESH_SECRET` and `expiresIn: '30d'`. -/
def generateRefreshToken (ext : Ext) (now : Nat) (userId : Nat)
    (email role : String) : Except Err String :=
  if userId == 0 || email == "" || role == "" then
    .error (.badRequest "User ID or email or role is missing")
  else
    .ok (ext.jwtSign { id := userId, email := email, role := role } now
          ext.jwtRefreshSecret "30d")

/-- JavaScript `String.prototype.split(sep)` for a one-character
separator, on the character list of the string: `"a:b:c" ↦ [a, b, c]`,
`"" ↦ [""]`, `":x" ↦ ["", x]`. Used to embed
`encryptedToken.split(':')` in `AuthService.decrypt`. -/
def jsSplit (sep : Char) (s : List Char) : List (List Char) :=
  s.foldr
    (fun c acc =>
      if c = sep then [] :: acc
      else match acc with
           | h :: t => (c :: h) :: t
           | [] => [[c]])
    [[]]

/-- `AuthService.encrypt` (lines 590–616): rejects an empty token, then
`createCipheriv(CRYPTO_ALGORITHM, CRYPTO_SECRET_KEY, INITIAL_VECTOR)` and
returns `` `${iv}:${encrypted}` `` — the configured IV, a colon, and the
hex ciphertext. No randomness is drawn; the IV comes from configuration
on every call. -/
def encrypt (ext : Ext) (token : String) : Except Err String :=
  if token == "" then .error (.badRequest "Please insert a token")
  else
    .ok (ext.initialVector ++ ":"
          ++ ext.encBlock ext.cryptoAlgorithm ext.cryptoSecretKey
               ext.initialVector token)

/-- `AuthService.decrypt` (lines 618–643): rejects an empty input, splits
on `':'` into `[ivHex, encrypted]`, then
`createDecipheriv(CRYPTO_ALGORITHM, CRYPTO_SECRET_KEY, ivHex)` on
`encrypted`. When the input has no `':'`, `encrypted` is `undefined` and
the decipher call raises a `TypeError`; cipher-level failures (bad hex,
bad padding, wrong key) raise generic crypto errors (`decBlock = none`).
Neither is a NestJS `HttpException`. -/
def decrypt (ext : Ext) (encryptedToken : String) : Except Err String :=
  if encryptedToken == "" then .error (.badRequest "Please insert phone number")
  else
    match jsSplit ':' encryptedToken.data with
    | ivHex :: encrypted :: _ =>
      match ext.decBlock ext.cryptoAlgorithm ext.cryptoSecretKey
              (String.mk ivHex) (String.mk encrypted) with
      | none => .error (.jsError "crypto error")
      | some plain => .ok plain
    | _ => .error (.jsError "TypeError")

/-! ## `AuthService` operations -/

/-- `AuthService.checkExistingUserEmail` (lines 336–372): rejects a
missing email, counts users with that email and throws
`BadRequestException('This email is already registered.')` when the count
is non-zero. Reads only; never writes. (Its catch block rethrows
`BadRequestException` and would wrap anything else as internal; the count
itself cannot fail in the model.) -/
def checkExistingUserEmail (db : Db) (email : String) : Except Err Unit :=
  if email == "" then .error (.badRequest "User email is missing")
  else if db.countUsersByEmail email != 0 then
    .error (.badRequest "This email is already registered.")
  else .ok ()

/-- `AuthService.findUserByEmail` (lines 374–418): rejects a missing
email, loads the user by unique email. Faithful to the source, in the
user-not-found branch the logger argument reads `user.email` while `user`
is `null` (line 398), raising a `TypeError` before the intended
`UnauthorizedException('Invalid email or password.')`; the catch block
rethrows only `NotFoundException`, so the caller sees
`InternalServerErrorException('Something went wrong during finding user.
Please try again.')`. Reads only; never writes. -/
def findUserByEmail (db : Db) (email : String) : Except Err User :=
  if email == "" then .error (.badRequest "User email is missing")
  else
    match db.findUserByEmail? email with
    | none => .error (.internal "Something went wrong during finding user. Please try again.")
    | some u => .ok u

/-- `AuthService.register` (lines 33–82): zod-validates, checks the email
is unused, bcrypt-hashes the password, creates the user row and returns
the public profile `{ id, name, email, image, role, createdAt,
updatedAt }` — no token fields. The catch block maps `ZodError` to
`BadRequestException(message)`, rethrows `BadRequestException`, and wraps
anything else as `InternalServerErrorException('Something went wrong
during registration. Please try again.')`. -/
def register (ext : Ext) (now : Nat) (db : Db) (request : RegisterAuthRequest) :
    Except Err UserResponse × Db :=
  let res : Except Err UserResponse × Db :=
    if !validREGISTER ext request then (.error (.zod "ZodError"), db)
    else
      match checkExistingUserEmail db request.email with
      | .error e => (.error e, db)
      | .ok () =>
        let hashedPassword := ext.bhash request.password
        let (user, db1) := db.createUser request.name request.email
          (some hashedPassword) none none now
        (.ok { id := user.id, name := user.name, email := user.email
               accessToken := none, refreshToken := none
               image := user.image, role := user.role
               createdAt := user.createdAt, updatedAt := user.updatedAt }, db1)
  match res with
  | (.error (.zod m), db') => (.error (.badRequest m), db')
  | (.error (.badRequest m), db') => (.error (.badRequest m), db')
  | (.error _, db') =>
    (.error (.internal "Something went wrong during registration. Please try again."), db')
  | ok => ok

/-- `AuthService.login` (lines 84–149): zod-validates, loads the user via
`findUserByEmail`, `bcrypt.compare`s the password (bcryptjs rejects with a
generic error when the stored hash is `null`), on success signs access and
refresh tokens, encrypts the refresh token for transport, bcrypt-hashes it
and stores the hash on the user row (overwriting any prior hash), and
returns the profile with both tokens. The catch block maps `ZodError` to
`BadRequestException`, rethrows `UnauthorizedException` /
`BadRequestException`, and wraps anything else as
`InternalServerErrorException('Something went wrong during login. Please
try again.')`. -/
def login (ext : Ext) (now : Nat) (db : Db) (request : LoginAuthRequest) :
    Except Err UserResponse × Db :=
  let res : Except Err UserResponse × Db :=
    if !validLOGIN ext request then (.error (.zod "ZodError"), db)
    else
      match findUserByEmail db request.email with
      | .error e => (.error e, db)
      | .ok user =>
        match user.password with
        | none => (.error (.jsError "Illegal arguments: string, object"), db)
        | some storedHash =>
          if !ext.bcompare request.password storedHash then
            (.error (.unauthorized "Invalid email or password."), db)
          else
            match generateAccessToken ext now user.id user.email user.role with
            | .error e => (.error e, db)
            | .ok accessToken =>
              match generateRefreshToken ext now user.id user.email user.role with
              | .error e => (.error e, db)
              | .ok refreshToken =>
                match encrypt ext refreshToken with
                | .error e => (.error e, db)
                | .ok encryptToken =>
                  let hashedRefreshToken := ext.bhash refreshToken
                  match db.updateUserRefreshTokenByEmail user.email
                          (some hashedRefreshToken) now with
                  | none => (.error (.jsError "P2025"), db)
                  | some db1 =>
                    (.ok { id := user.id, name := user.name, email := user.email
                           accessToken := some accessToken
                           refreshToken := some encryptToken
                           image := user.image, role := user.role
                           createdAt := user.createdAt
                           updatedAt := user.updatedAt }, db1)
  match res with
  | (.error (.zod m), db') => (.error (.badRequest m), db')
  | (.error (.unauthorized m), db') => (.error (.unauthorized m), db')
  | (.error (.badRequest m), db') => (.error (.badRequest m), db')
  | (.error _, db') =>
    (.error (.internal "Something went wrong during login. Please try again."), db')
  | ok => ok

/-- `AuthService.findUserById` (lines 420–484): rejects a falsy id (0),
loads the user by id. Faithful to the source, in the not-found branch the
logger argument reads `user.id` while `user` is `null` (line 444), raising
a `TypeError` before the intended `NotFoundException`. On success it mints
fresh access and refresh tokens, encrypts the refresh token, bcrypt-hashes
it and OVERWRITES the user's stored refresh-token hash, then returns the
profile (id, name, email, role, both tokens, timestamps — no image field,
modelled as `none`). The catch block rethrows `NotFoundException` and
wraps everything else (including the `TypeError` and any
`BadRequestException` from the token helpers) as
`InternalServerErrorException('Something went wrong during finding user.
Please try again.')`. -/
def findUserById (ext : Ext) (now : Nat) (db : Db) (id : Nat) :
    Except Err UserResponse × Db :=
  if id == 0 then (.error (.badRequest "User ID is missing"), db)
  else
    let res : Except Err UserResponse × Db :=
      match db.findUserById? id with
      | none => (.error (.jsError "TypeError"), db)
      | some user =>
        match generateAccessToken ext now user.id user.email user.role with
        | .error e => (.error e, db)
        | .ok accessToken =>
          match generateRefreshToken ext now user.id user.email user.role with
          | .error e => (.error e, db)
          | .ok refreshToken =>
            match encrypt ext refreshToken with
            | .error e => (.error e, db)
            | .ok encryptedToken =>
              let hashedRefreshToken := ext.bhash refreshToken
              match db.updateUserRefreshTokenById user.id
                      (some hashedRefreshToken) now with
              | none => (.error (.jsError "P2025"), db)
              | some db1 =>
                (.ok { id := user.id, name := user.name, email := user.email
                       accessToken := some accessToken
                       refreshToken := some encryptedToken
                       image := none, role := user.role
                       createdAt := user.createdAt
                       updatedAt := user.updatedAt }, db1)
    match res with
    | (.error (.notFound m), db') => (.error (.notFound m), db')
    | (.error _, db') =>
      (.error (.internal "Something went wrong during finding user. Please try again."), db')
    | ok => ok

/-- `AuthService.findAccount` (lines 486–532): rejects missing params,
loads the account by the unique `(provider, providerAccountId)` pair.
Faithful to the source, the success logger reads `account.id` /
`account.userId` unconditionally (lines 514–517); when no account matched,
`account` is `null` and this raises a `TypeError`, caught by the catch
block and surfaced as `InternalServerErrorException('Something went wrong
during finding account. Please try again.')` — so the function can
fulfil with `some account` or throw, but never returns `ok none`. The
`ok none` case is kept in the type because the source's declared return
type is `Promise<Account | null>` and `AuthService.validate` branches on
it. -/
def findAccount (db : Db) (providerAccountId provider : String) :
    Except Err (Option Account) :=
  if provider == "" || providerAccountId == "" then
    .error (.badRequest "Account provider or provider account ID is missing")
  else
    match db.findAccount? provider providerAccountId with
    | none => .error (.internal "Something went wrong during finding account. Please try again.")
    | some a => .ok (some a)

/-- `AuthService.validate` (lines 151–256) — the OAuth validation flow:
zod-validates, looks up the OAuth link via `findAccount`. Immediately
after that lookup (lines 166–172) a debug logger reads `account.id`,
`account.userId`, … — if the lookup had produced `null` this would raise
a `TypeError` (modelled below), though `findAccount` itself already throws
in that case, so the `if (!account)` branch (lines 180–213:
`checkExistingUserEmail` then the atomic `account.create` with the nested
user create, i.e. `Db.createAccountWithUser`) is unreachable; it is kept
here verbatim for fidelity. Then it loads the user via `findUserById`
(which itself already rotates the stored refresh-token hash), mints a
fresh access and refresh token against `validateRequest.email`,
bcrypt-hashes the refresh token and overwrites the user's stored hash
again, and returns the Account. The catch block maps `ZodError` to
`BadRequestException`, rethrows `BadRequestException`, and wraps anything
else (including the `InternalServerErrorException` from `findAccount`) as
`InternalServerErrorException('Something went wrong during validation
account. Please try again')`. -/
def validate (ext : Ext) (now : Nat) (db : Db) (request : ValidateAuthRequest) :
    Except Err Account × Db :=
  let res : Except Err Account × Db :=
    if !validVALIDATEUSER ext request then (.error (.zod "ZodError"), db)
    else
      match findAccount db request.providerAccountId request.provider with
      | .error e => (.error e, db)
      | .ok acctOpt =>
        match acctOpt with
        | none => (.error (.jsError "TypeError"), db)
        | some account =>
            -- line 180 `if (!account)`: account is non-null here, so the
            -- creation branch (`validateAbsentBranch`) is skipped.
            match findUserById ext now db account.userId with
            | (.error e, db2) => (.error e, db2)
            | (.ok user, db2) =>
              match generateAccessToken ext now user.id request.email user.role with
              | .error e => (.error e, db2)
              | .ok _accessToken =>
                match generateRefreshToken ext now user.id request.email user.role with
                | .error e => (.error e, db2)
                | .ok refreshToken =>
                  let hashedRefreshToken := ext.bhash refreshToken
                  match db2.updateUserRefreshTokenById account.userId
                          (some hashedRefreshToken) now with
                  | none => (.error (.jsError "P2025"), db2)
                  | some db3 => (.ok account, db3)
  match res with
  | (.error (.zod m), db') => (.error (.badRequest m), db')
  | (.error (.badRequest m), db') => (.error (.badRequest m), db')
  | (.error _, db') =>
    (.error (.internal "Something went wrong during validation account. Please try again"), db')
  | ok => ok

/-- The body of the unreachable `if (!account)` branch of
`AuthService.validate` (lines 180–213), embedded on its own: check the
email is unused (`DuplicateEmail` ordering), then atomically create the
user and the OAuth link. This is what the spec describes for the
absent-link case; `validate` can never reach it because `findAccount`
(line 514) dereferences the `null` account first. -/
def validateAbsentBranch (db : Db) (request : ValidateAuthRequest) (now : Nat) :
    Except Err Account × Db :=
  match checkExistingUserEmail db request.email with
  | .error e => (.error e, db)
  | .ok () =>
    let (account, db1) := db.createAccountWithUser request.email request.name
      request.image request.provider request.providerAccountId
      request.refreshToken now
    (.ok account, db1)

/-- `AuthService.generateNewAccessToken` (lines 258–334) — the refresh
flow: rejects a missing token with
`BadRequestException('Refresh token is missing')` (outside the try);
decrypts (crypto failures are generic errors); `jwtService.verify`s with
`JWT_REFRESH_SECRET` (failures are `JsonWebTokenError`s, also generic);
loads the user by the payload id
(`UnauthorizedException('User not found')`); requires a stored
refresh-token hash (`UnauthorizedException('Refresh token not found')`);
`bcrypt.compare`s the decrypted token against the stored hash
(`UnauthorizedException('Invalid refresh token')` on mismatch); then
returns `{ accessToken }` only — it performs no database write. The
catch block rethrows `UnauthorizedException` / `BadRequestException` and
wraps everything else (decryption and verification failures included) as
`InternalServerErrorException('Something went wrong during generate
access token. Please try again.')`. -/
def generateNewAccessToken (ext : Ext) (now : Nat) (db : Db)
    (refreshToken : String) : Except Err NewTokenResponse × Db :=
  if refreshToken == "" then
    (.error (.badRequest "Refresh token is missing"), db)
  else
    let res : Except Err NewTokenResponse :=
      match decrypt ext refreshToken with
      | .error e => .error e
      | .ok decryptToken =>
        match ext.jwtVerify decryptToken ext.jwtRefreshSecret with
        | none => .error (.jsError "JsonWebTokenError")
        | some payload =>
          match db.findUserById? payload.id with
          | none => .error (.unauthorized "User not found")
          | some user =>
            match user.refreshToken with
            | none => .error (.unauthorized "Refresh token not found")
            | some refreshTokenDB =>
              if !ext.bcompare decryptToken refreshTokenDB then
                .error (.unauthorized "Invalid refresh token")
              else
                match generateAccessToken ext now user.id user.email user.role with
                | .error e => .error e
                | .ok newAccessToken => .ok { accessToken := newAccessToken }
    (match res with
     | .error (.unauthorized m) => .error (.unauthorized m)
     | .error (.badRequest m) => .error (.badRequest m)
     | .error _ =>
       .error (.internal "Something went wrong during generate access token. Please try again.")
     | .ok r => .ok r, db)

/-! ## HTTP boundary (`auth.controller.ts`, `error.filter.ts`,
`handle-error.service.ts`) -/

/-- `handleErrorService.controller`: logs and rethrows the error unchanged
in both branches — classified errors pass through to the filter as-is. -/
def handleErrorController (e : Err) : Err := e

/-- The status the global `ErrorFilter` responds with: `ZodError` 400,
`HttpException`s keep their own status (400 / 401 / 404 / 500), anything
else becomes a 500 `Internal server error`. -/
def errStatus : Err → Nat
  | .zod _ => 400
  | .badRequest _ => 400
  | .unauthorized _ => 401
  | .notFound _ => 404
  | .internal _ => 500
  | .jsError _ => 500

/-- `AuthController.newToken` (lines 116–143): reads the `refresh_token`
cookie, throws `UnauthorizedException('Refresh token not found')` when
absent, otherwise delegates to `generateNewAccessToken`; errors pass
through `handleErrorService.controller` unchanged. On success it sets the
`access_token` cookie from the result. -/
def newToken (ext : Ext) (now : Nat) (db : Db) (cookie : Option String) :
    Except Err NewTokenResponse × Db :=
  match cookie with
  | none => (.error (handleErrorController (.unauthorized "Refresh token not found")), db)
  | some refreshToken =>
    match generateNewAccessToken ext now db refreshToken with
    | (.error e, db') => (.error (handleErrorController e), db')
    | ok => ok

/-- The value of the google redirect response: which cookie is set and
where the client is sent. -/
structure RedirectResult where
  accessCookie : Option String
  redirectUrl : String
deriving Repr, DecidableEq

/-- `AuthController.googleAuthRedirect` (lines 91–114): requires
`req.user` (the id resolved by the Google strategy), fetches the signed-in
user via `AuthService.findUserById`, sets ONLY the `access_token` cookie
from the result, and redirects to the configured frontend URL. The
encrypted refresh token in the `UserResponse` is never placed in a cookie
or the body. -/
def googleAuthRedirect (ext : Ext) (now : Nat) (db : Db)
    (reqUserId : Option Nat) : Except Err RedirectResult × Db :=
  match reqUserId with
  | none => (.error (handleErrorController (.unauthorized "Google authentication failed")), db)
  | some uid =>
    match findUserById ext now db uid with
    | (.error e, db') => (.error (handleErrorController e), db')
    | (.ok currentUser, db') =>
      (.ok { accessCookie := currentUser.accessToken
             redirectUrl := ext.frontendUrl }, db')

/-! ## Helper lemmas about the embedded JavaScript split -/

/-- Unfolding of `jsSplit` on a cons cell. -/
theorem jsSplit_cons (sep c : Char) (l : List Char) :
    jsSplit sep (c :: l) =
      if c = sep then [] :: jsSplit sep l
      else match jsSplit sep l with
           | h :: t => (c :: h) :: t
           | [] => [[c]] := rfl

/-- `split(sep)` on a separator-free string returns the single segment. -/
theorem jsSplit_sepFree (sep : Char) (l : List Char) (h : ∀ c ∈ l, c ≠ sep) :
    jsSplit sep l = [l] := by
  induction l with
  | nil => rfl
  | cons c rest ih =>
    have hc : c ≠ sep := h c (List.mem_cons_self c rest)
    have hrest : ∀ c ∈ rest, c ≠ sep := fun x hx => h x (List.mem_cons_of_mem c hx)
    rw [jsSplit_cons, if_neg hc, ih hrest]

/-- `split(sep)` of `a ++ sep :: b` with `a` separator-free yields `a`
followed by the split of `b`. -/
theorem jsSplit_append (sep : Char) (a b : List Char) (h : ∀ c ∈ a, c ≠ sep) :
    jsSplit sep (a ++ sep :: b) = a :: jsSplit sep b := by
  induction a with
  | nil =>
    rw [List.nil_append, jsSplit_cons, if_pos rfl]
  | cons c rest ih =>
    have hc : c ≠ sep := h c (List.mem_cons_self c rest)
    have hrest : ∀ x ∈ rest, x ≠ sep := fun x hx => h x (List.mem_cons_of_mem c hx)
    rw [List.cons_append, jsSplit_cons, if_neg hc, ih hrest]

/-- The wire format round trip at the heart of `decrypt ∘ encrypt`:
splitting `iv ++ ":" ++ enc` recovers `iv` and `enc` and feeding them to
the block decipher gives back whatever it maps them to. -/
theorem decrypt_wire (ext : Ext) (enc : String)
    (hiv : ∀ c ∈ ext.initialVector.data, c ≠ ':')
    (henc : ∀ c ∈ enc.data, c ≠ ':') :
    decrypt ext (ext.initialVector ++ ":" ++ enc) =
      match ext.decBlock ext.cryptoAlgorithm ext.cryptoSecretKey
              ext.initialVector enc with
      | none => .error (.jsError "crypto error")
      | some plain => .ok plain := by
  have hdata : (ext.initialVector ++ ":" ++ enc).data
      = ext.initialVector.data ++ ':' :: enc.data := by
    simp [String.data_append]
  have hne : (ext.initialVector ++ ":" ++ enc) ≠ "" := by
    intro hcontra
    have : (ext.initialVector ++ ":" ++ enc).data = ("" : String).data := by
      rw [hcontra]
    rw [hdata] at this
    simp at this
  unfold decrypt
  rw [if_neg (by simpa using hne)]
  rw [hdata, jsSplit_append _ _ _ hiv, jsSplit_sepFree _ _ henc]

/-! ## A concrete instantiation of the external collaborators

Used to evaluate the embedded service on closed inputs: a deterministic
stand-in for bcrypt, a record-and-check stand-in for the JWT signer, and
hex transcoding as the block cipher. Each satisfies, at the concrete
points where the theorems below need them, the contracts the real
libraries provide. -/

/-- Value of a lowercase hex digit. -/
def hexVal (c : Char) : Option Nat :=
  if '0' ≤ c ∧ c ≤ '9' then some (c.toNat - '0'.toNat)
  else if 'a' ≤ c ∧ c ≤ 'f' then some (c.toNat - 'a'.toNat + 10)
  else none

/-- Lowercase hex digit of a value `< 16`. -/
def hexDigit (n : Nat) : Char :=
  if n < 10 then Char.ofNat ('0'.toNat + n) else Char.ofNat ('a'.toNat + n - 10)

/-- Byte-wise hex encoding of a character list (test stand-in for a block
cipher's hex ciphertext). -/
def toHexChars : List Char → List Char
  | [] => []
  | c :: rest => hexDigit (c.toNat / 16 % 16) :: hexDigit (c.toNat % 16) :: toHexChars rest

/-- Inverse of `toHexChars`; `none` on malformed input (stand-in for the
decipher throwing). -/
def fromHexChars : List Char → Option (List Char)
  | [] => some []
  | c1 :: c2 :: rest =>
    match hexVal c1, hexVal c2, fromHexChars rest with
    | some h, some l, some r => some (Char.ofNat (16 * h + l) :: r)
    | _, _, _ => none
  | [_] => none

/-- Decimal parser on a character list (structural, so that closed
evaluations reduce). -/
def parseNatAux : List Char → Nat → Option Nat
  | [], acc => some acc
  | c :: rest, acc =>
    if '0' ≤ c ∧ c ≤ '9' then parseNatAux rest (acc * 10 + (c.toNat - '0'.toNat))
    else none

/-- Decimal parser on a string; `none` on the empty or a non-numeric
string. -/
def parseNat (s : String) : Option Nat :=
  match s.data with
  | [] => none
  | l => parseNatAux l 0

/-- The concrete collaborator instantiation. -/
def extT : Ext where
  bhash s := "bc$" ++ s
  bcompare s h := h == "bc$" ++ s
  jwtSign p iat secret _expiresIn :=
    secret ++ "|" ++ toString p.id ++ "|" ++ p.email ++ "|" ++ p.role
      ++ "|" ++ toString iat
  jwtVerify t secret :=
    match (jsSplit '|' t.data).map String.mk with
    | [s, idStr, email, role, _iat] =>
      if s == secret then
        match parseNat idStr with
        | some id => some { id := id, email := email, role := role }
        | none => none
      else none
    | _ => none
  encBlock _alg _key _iv plain := String.mk (toHexChars plain.data)
  decBlock _alg _key _iv cipherHex := (fromHexChars cipherHex.data).map String.mk
  jwtAccessSecret := "AS"
  jwtRefreshSecret := "RS"
  cryptoAlgorithm := "aes-256-cbc"
  cryptoSecretKey := "5eced4"
  initialVector := "ab12"
  frontendUrl := "http://localhost:3000"
  isEmail e := e.data.any (fun c => c = '@')

/-- The empty database. -/
def dbEmpty : Db := { users := [], accounts := [], nextUserId := 1, nextAccountId := 1 }

/-- Ann's user row as stored after a registration with password
`Secret123` under `extT`. -/
def annUser : User :=
  { id := 1, name := "Ann", email := "ann@x", password := some "bc$Secret123"
    refreshToken := none, image := none, role := "CUSTOMER"
    createdAt := 0, updatedAt := 0 }

/-- A one-user database holding Ann. -/
def dbAnn : Db := { users := [annUser], accounts := [], nextUserId := 2, nextAccountId := 1 }

/-! ## Claim theorems -/

/-- C4: every `refreshAccessToken` (`AuthService.generateNewAccessToken`)
call — successful ones included — leaves the database unchanged: the
stored refresh-token hash and every other field of every account survive
as they were, and repeating the very same call against the resulting
state returns the very same result, so the presented refresh token stays
valid for its full signed life. The function's result type
(`NewTokenResponse`) carries the new access token and nothing else. -/
theorem C4_refresh_is_read_only (ext : Ext) (now : Nat) (db : Db) (t : String) :
    (generateNewAccessToken ext now db t).2 = db ∧
    generateNewAccessToken ext now (generateNewAccessToken ext now db t).2 t
      = generateNewAccessToken ext now db t := by
  have h2 : (generateNewAccessToken ext now db t).2 = db := by
    unfold generateNewAccessToken
    split <;> rfl
  exact ⟨h2, by rw [h2]⟩

/-- C10: `AuthService.encrypt` is deterministic under a fixed
configuration — it is a pure function of the configured algorithm, key
and `INITIAL_VECTOR` and the plaintext, drawing no per-call randomness
(`Ext` holds no random source because the source code consults none) —
and every output is the one configured IV, then `':'`, then the
ciphertext: splitting the output on `':'` always recovers the configured
IV as the first segment. -/
theorem C10_encrypt_deterministic_fixed_iv (ext : Ext) (t : String) (h : t ≠ "")
    (hiv : ∀ c ∈ ext.initialVector.data, c ≠ ':') :
    encrypt ext t = .ok (ext.initialVector ++ ":"
        ++ ext.encBlock ext.cryptoAlgorithm ext.cryptoSecretKey ext.initialVector t) ∧
    (jsSplit ':' (ext.initialVector ++ ":"
        ++ ext.encBlock ext.cryptoAlgorithm ext.cryptoSecretKey
             ext.initialVector t).data).head?
      = some ext.initialVector.data := by
  constructor
  · unfold encrypt
    rw [if_neg (by simpa using h)]
  · rw [show (ext.initialVector ++ ":"
        ++ ext.encBlock ext.cryptoAlgorithm ext.cryptoSecretKey
             ext.initialVector t).data
          = ext.initialVector.data ++ ':'
              :: (ext.encBlock ext.cryptoAlgorithm ext.cryptoSecretKey
                    ext.initialVector t).data from by simp [String.data_append]]
    rw [jsSplit_append _ _ _ hiv]
    rfl

/-- Witness for C10 at a concrete plaintext under `extT`. -/
theorem C10_witness :
    encrypt extT "tok" = .ok (extT.initialVector ++ ":"
        ++ extT.encBlock extT.cryptoAlgorithm extT.cryptoSecretKey
             extT.initialVector "tok") ∧
    (jsSplit ':' (extT.initialVector ++ ":"
        ++ extT.encBlock extT.cryptoAlgorithm extT.cryptoSecretKey
             extT.initialVector "tok").data).head?
      = some extT.initialVector.data :=
  C10_encrypt_deterministic_fixed_iv extT "tok" (by decide) (by decide)

/-- C5: the cipher round-trip law — for a (nonempty) token string, any
output of `encrypt` decrypts back to the token, provided the underlying
block cipher round-trips at that point and neither the configured IV nor
the hex ciphertext contains the `':'` separator (hex output never does):
`decrypt` splits the self-describing `ivHex:cipherHex` wire string on the
separator and recovers the plaintext. -/
theorem C5_cipher_roundtrip (ext : Ext) (t : String) (h : t ≠ "")
    (hiv : ∀ c ∈ ext.initialVector.data, c ≠ ':')
    (henc : ∀ c ∈ (ext.encBlock ext.cryptoAlgorithm ext.cryptoSecretKey
                     ext.initialVector t).data, c ≠ ':')
    (hdec : ext.decBlock ext.cryptoAlgorithm ext.cryptoSecretKey ext.initialVector
              (ext.encBlock ext.cryptoAlgorithm ext.cryptoSecretKey
                 ext.initialVector t) = some t) :
    ∀ c, encrypt ext t = .ok c → decrypt ext c = .ok t := by
  intro c hc
  unfold encrypt at hc
  rw [if_neg (by simpa using h)] at hc
  cases hc
  rw [decrypt_wire ext _ hiv henc, hdec]

/-- Witness for C5: a JWT-shaped token signed by `extT`'s signer
round-trips through `encrypt` / `decrypt`. -/
theorem C5_witness :
    decrypt extT (extT.initialVector ++ ":"
      ++ extT.encBlock extT.cryptoAlgorithm extT.cryptoSecretKey
           extT.initialVector (extT.jwtSign ⟨1, "ann@x", "CUSTOMER"⟩ 1 "RS" "30d"))
      = .ok (extT.jwtSign ⟨1, "ann@x", "CUSTOMER"⟩ 1 "RS" "30d") :=
  C5_cipher_roundtrip extT _ (by decide) (by decide) (by decide) (by decide) _
    (by decide)

/-- A fresh-OAuth-identity validation request: provider pair
`("google","123")`, email `a@x` — no matching link or user exists in
`dbEmpty`. -/
def oauthReq : ValidateAuthRequest :=
  { email := "a@x", name := "Ann", image := "img", emailVerified := some true
    accessToken := "at", refreshToken := some "prt"
    provider := "google", providerAccountId := "123" }

/-- The same provider identity presented for Ann's email. -/
def oauthReqAnn : ValidateAuthRequest := { oauthReq with email := "ann@x" }

/-- The OAuth link row tying provider pair `("google","123")` to Ann. -/
def linkedAccount : Account :=
  { id := 1, userId := 1, provider := "google", providerAccountId := "123"
    refreshToken := some "prt", createdAt := 0, updatedAt := 0 }

/-- Ann plus her OAuth link. -/
def dbLinked : Db :=
  { users := [annUser], accounts := [linkedAccount], nextUserId := 2, nextAccountId := 2 }

/-- C1 (evaluation at the failing input): when no OAuthLink exists for the
provider pair, `AuthService.validate` does NOT fail `DuplicateEmail` and
does NOT create an Account/OAuthLink — it fails with the generic
internal error and leaves the store untouched (so two identical calls end
with zero accounts, not one): `findAccount` (line 514) logs `account.id`
while `account` is `null`, so the not-found case raises a `TypeError`
that surfaces as `InternalServerErrorException`, making the
account-creation branch (lines 180–213) dead code. The branch body itself
(`validateAbsentBranch`) would have created exactly one user and one
account, and would have failed `DuplicateEmail` for an existing email —
the spec's described behavior. When a link DOES exist, `validate` reuses
it: both calls resolve to the same account id and create nothing. -/
theorem C1_validate_absent_link_500_creates_nothing :
    validate extT 1 dbEmpty oauthReq
      = (.error (.internal "Something went wrong during validation account. Please try again"),
         dbEmpty) ∧
    (validate extT 2 (validate extT 1 dbEmpty oauthReq).2 oauthReq).2.accounts = [] ∧
    (validate extT 2 (validate extT 1 dbEmpty oauthReq).2 oauthReq).2.users = [] ∧
    (validateAbsentBranch dbEmpty oauthReq 1).2.accounts.length = 1 ∧
    (validateAbsentBranch dbEmpty oauthReq 1).2.users.length = 1 ∧
    (validateAbsentBranch dbAnn oauthReqAnn 1).1
      = .error (.badRequest "This email is already registered.") ∧
    (validate extT 1 dbLinked oauthReqAnn).1 = .ok linkedAccount ∧
    (validate extT 2 (validate extT 1 dbLinked oauthReqAnn).2 oauthReqAnn).1
      = .ok linkedAccount ∧
    (validate extT 2 (validate extT 1 dbLinked oauthReqAnn).2 oauthReqAnn).2.accounts
      = [linkedAccount] ∧
    ((validate extT 2 (validate extT 1 dbLinked oauthReqAnn).2 oauthReqAnn).2.users.map
        User.id) = [1] := by
  decide

/-- C2 (counterexample to the claim as stated): decryption failures and
signature-verification failures do NOT surface as named, classified
client-facing token errors — both are swallowed by the generic catch of
`generateNewAccessToken` and reach the HTTP boundary as the one
`InternalServerErrorException` (status 500). First input: a cookie with
no `':'` (decryption raises). Second input: a well-formed ciphertext of a
non-JWT string (decryption succeeds, `jwtService.verify` raises). -/
theorem C2_counterexample_unclassified_500 :
    newToken extT 1 dbAnn (some "zz")
      = (.error (.internal "Something went wrong during generate access token. Please try again."),
         dbAnn) ∧
    newToken extT 1 dbAnn (some ("ab12:" ++ String.mk (toHexChars "junk".data)))
      = (.error (.internal "Something went wrong during generate access token. Please try again."),
         dbAnn) ∧
    errStatus (.internal "Something went wrong during generate access token. Please try again.")
      = 500 := by
  decide

/-- C2 (amended): `refreshAccessToken` performs its checks in the stated
order, but only four of the six failures are classified client-facing
errors passed through unchanged to the HTTP boundary: missing token
(`UnauthorizedException` at the controller for a missing cookie,
`BadRequestException('Refresh token is missing')` at the service), unknown
subject id (`UnauthorizedException('User not found')`, 401), null stored
hash (`UnauthorizedException('Refresh token not found')`, 401) and hash
mismatch (`UnauthorizedException('Invalid refresh token')`, 401).
Decryption failures and signature-verification failures are caught by the
generic handler and surface as the internal error (500) instead of named
token errors. `handleErrorService.controller` passes every error through
unchanged. -/
theorem C2_refresh_error_taxonomy (ext : Ext) (now : Nat) (db : Db) :
    (newToken ext now db none
        = (.error (.unauthorized "Refresh token not found"), db) ∧
      errStatus (.unauthorized "Refresh token not found") = 401) ∧
    (generateNewAccessToken ext now db ""
        = (.error (.badRequest "Refresh token is missing"), db) ∧
      errStatus (.badRequest "Refresh token is missing") = 400) ∧
    (∀ t m, t ≠ "" → decrypt ext t = .error (.jsError m) →
      newToken ext now db (some t)
        = (.error (.internal "Something went wrong during generate access token. Please try again."),
           db)) ∧
    (∀ t d, t ≠ "" → decrypt ext t = .ok d →
      ext.jwtVerify d ext.jwtRefreshSecret = none →
      newToken ext now db (some t)
        = (.error (.internal "Something went wrong during generate access token. Please try again."),
           db)) ∧
    (∀ t d p, t ≠ "" → decrypt ext t = .ok d →
      ext.jwtVerify d ext.jwtRefreshSecret = some p →
      db.findUserById? p.id = none →
      newToken ext now db (some t)
        = (.error (.unauthorized "User not found"), db)) ∧
    (∀ t d p u, t ≠ "" → decrypt ext t = .ok d →
      ext.jwtVerify d ext.jwtRefreshSecret = some p →
      db.findUserById? p.id = some u → u.refreshToken = none →
      newToken ext now db (some t)
        = (.error (.unauthorized "Refresh token not found"), db)) ∧
    (∀ t d p u sh, t ≠ "" → decrypt ext t = .ok d →
      ext.jwtVerify d ext.jwtRefreshSecret = some p →
      db.findUserById? p.id = some u → u.refreshToken = some sh →
      ext.bcompare d sh = false →
      newToken ext now db (some t)
        = (.error (.unauthorized "Invalid refresh token"), db)) ∧
    (∀ e : Err, handleErrorController e = e) ∧
    errStatus (.unauthorized "User not found") = 401 ∧
    errStatus (.unauthorized "Refresh token not found") = 401 ∧
    errStatus (.unauthorized "Invalid refresh token") = 401 := by
  refine ⟨⟨rfl, rfl⟩, ⟨rfl, rfl⟩, ?_, ?_, ?_, ?_, ?_, fun e => rfl, rfl, rfl, rfl⟩
  · intro t m ht hdec
    have ht' : (t == "") = false := by simpa using ht
    simp [newToken, generateNewAccessToken, handleErrorController, ht', hdec]
  · intro t d ht hdec hver
    have ht' : (t == "") = false := by simpa using ht
    simp [newToken, generateNewAccessToken, handleErrorController, ht', hdec, hver]
  · intro t d p ht hdec hver hfind
    have ht' : (t == "") = false := by simpa using ht
    simp [newToken, generateNewAccessToken, handleErrorController, ht', hdec, hver, hfind]
  · intro t d p u ht hdec hver hfind hrt
    have ht' : (t == "") = false := by simpa using ht
    simp [newToken, generateNewAccessToken, handleErrorController, ht', hdec, hver, hfind, hrt]
  · intro t d p u sh ht hdec hver hfind hrt hcmp
    have ht' : (t == "") = false := by simpa using ht
    simp [newToken, generateNewAccessToken, handleErrorController, ht', hdec, hver, hfind, hrt, hcmp]

/-- Ann with a stored refresh-token hash belonging to some other token
`r2`. -/
def annUserStale : User := { annUser with refreshToken := some "bc$r2" }

/-- One-user database holding `annUserStale`. -/
def dbAnnStale : Db :=
  { users := [annUserStale], accounts := [], nextUserId := 2, nextAccountId := 1 }

/-- Witness for C2 at the hash-mismatch stage: an encrypted, validly
signed token for Ann that does not match her stored hash is rejected with
the classified `UnauthorizedException('Invalid refresh token')`. -/
theorem C2_witness :
    newToken extT 5 dbAnnStale
        (some ("ab12:" ++ String.mk (toHexChars "RS|1|ann@x|CUSTOMER|1".data)))
      = (.error (.unauthorized "Invalid refresh token"), dbAnnStale) :=
  (C2_refresh_error_taxonomy extT 5 dbAnnStale).2.2.2.2.2.2.1
    ("ab12:" ++ String.mk (toHexChars "RS|1|ann@x|CUSTOMER|1".data))
    "RS|1|ann@x|CUSTOMER|1" ⟨1, "ann@x", "CUSTOMER"⟩ annUserStale "bc$r2"
    (by decide) (by decide) (by decide) (by decide) (by decide) (by decide)

/-- C6 (counterexample to the claim as stated): the two login failures are
NOT the same uniform `InvalidCredentials` result. A wrong password for
Ann's existing email yields `UnauthorizedException('Invalid email or
password.')` (401), but a login for a non-existent email yields the
generic `InternalServerErrorException` (500, different message):
`findUserByEmail` logs `user.email` on the `null` user (line 398),
raising a `TypeError` before the uniform-message throw, and its catch
rethrows only `NotFoundException`. The response therefore reveals whether
the email exists. -/
theorem C6_counterexample_login_reveals_email :
    login extT 1 dbAnn { email := "bob@x", password := "Whatever1" }
      = (.error (.internal "Something went wrong during login. Please try again."), dbAnn) ∧
    login extT 1 dbAnn { email := "ann@x", password := "WrongPass1" }
      = (.error (.unauthorized "Invalid email or password."), dbAnn) ∧
    Err.internal "Something went wrong during login. Please try again."
      ≠ Err.unauthorized "Invalid email or password." := by
  decide

/-- C6 (amended): login failures are NOT uniform — an unknown email fails
with the generic internal error (500) while a wrong password for an
existing email fails `UnauthorizedException('Invalid email or password.')`
(401), so the HTTP response reveals whether the email exists; and refresh
failures carry check-specific messages (`'Refresh token not found'` for a
missing stored hash vs `'Invalid refresh token'` for a hash mismatch)
rather than one uniform message. -/
theorem C6_failure_messages_not_uniform (ext : Ext) (now : Nat) :
    (∀ db (r : LoginAuthRequest), validLOGIN ext r = true → r.email ≠ "" →
      db.findUserByEmail? r.email = none →
      login ext now db r
        = (.error (.internal "Something went wrong during login. Please try again."), db)) ∧
    (∀ db (r : LoginAuthRequest) u ph, validLOGIN ext r = true → r.email ≠ "" →
      db.findUserByEmail? r.email = some u → u.password = some ph →
      ext.bcompare r.password ph = false →
      login ext now db r
        = (.error (.unauthorized "Invalid email or password."), db)) ∧
    Err.internal "Something went wrong during login. Please try again."
      ≠ Err.unauthorized "Invalid email or password." ∧
    errStatus (.internal "Something went wrong during login. Please try again.") = 500 ∧
    errStatus (.unauthorized "Invalid email or password.") = 401 ∧
    (∀ db t d p u, t ≠ "" → decrypt ext t = .ok d →
      ext.jwtVerify d ext.jwtRefreshSecret = some p →
      db.findUserById? p.id = some u → u.refreshToken = none →
      (generateNewAccessToken ext now db t).1
        = .error (.unauthorized "Refresh token not found")) ∧
    (∀ db t d p u sh, t ≠ "" → decrypt ext t = .ok d →
      ext.jwtVerify d ext.jwtRefreshSecret = some p →
      db.findUserById? p.id = some u → u.refreshToken = some sh →
      ext.bcompare d sh = false →
      (generateNewAccessToken ext now db t).1
        = .error (.unauthorized "Invalid refresh token")) ∧
    Err.unauthorized "Refresh token not found"
      ≠ Err.unauthorized "Invalid refresh token" := by
  refine ⟨?_, ?_, by decide, rfl, rfl, ?_, ?_, by decide⟩
  · intro db r hval hemail hfind
    have hemail' : (r.email == "") = false := by simpa using hemail
    simp [login, findUserByEmail, hval, hemail', hfind]
  · intro db r u ph hval hemail hfind hpw hcmp
    have hemail' : (r.email == "") = false := by simpa using hemail
    simp [login, findUserByEmail, hval, hemail', hfind, hpw, hcmp]
  · intro db t d p u ht hdec hver hfind hrt
    have ht' : (t == "") = false := by simpa using ht
    simp [generateNewAccessToken, ht', hdec, hver, hfind, hrt]
  · intro db t d p u sh ht hdec hver hfind hrt hcmp
    have ht' : (t == "") = false := by simpa using ht
    simp [generateNewAccessToken, ht', hdec, hver, hfind, hrt, hcmp]

/-- Witness for C6 at Bob's (unknown) and Ann's (wrong password)
concrete logins. -/
theorem C6_witness :
    login extT 3 dbAnn { email := "bob@x", password := "Whatever1" }
      = (.error (.internal "Something went wrong during login. Please try again."), dbAnn) ∧
    login extT 3 dbAnn { email := "ann@x", password := "WrongPass1" }
      = (.error (.unauthorized "Invalid email or password."), dbAnn) :=
  ⟨(C6_failure_messages_not_uniform extT 3).1 dbAnn
      { email := "bob@x", password := "Whatever1" } (by decide) (by decide) (by decide),
   (C6_failure_messages_not_uniform extT 3).2.1 dbAnn
      { email := "ann@x", password := "WrongPass1" } annUser "bc$Secret123"
      (by decide) (by decide) (by decide) (by decide) (by decide)⟩

/-- C8: a login that fails `InvalidCredentials` because the password is
wrong for an existing email performs no write — the database (in
particular the account's stored refresh-token hash) is returned exactly
as it was. -/
theorem C8_failed_login_is_read_only (ext : Ext) (now : Nat) (db : Db)
    (r : LoginAuthRequest) (u : User) (ph : String)
    (hval : validLOGIN ext r = true) (hemail : r.email ≠ "")
    (hfind : db.findUserByEmail? r.email = some u)
    (hpw : u.password = some ph)
    (hcmp : ext.bcompare r.password ph = false) :
    login ext now db r = (.error (.unauthorized "Invalid email or password."), db) := by
  have hemail' : (r.email == "") = false := by simpa using hemail
  simp [login, findUserByEmail, hval, hemail', hfind, hpw, hcmp]

/-- Witness for C8: Ann's failed login leaves `dbAnn` (her stored hash
included) untouched. -/
theorem C8_witness :
    login extT 7 dbAnn { email := "ann@x", password := "WrongPass22" }
      = (.error (.unauthorized "Invalid email or password."), dbAnn) :=
  C8_failed_login_is_read_only extT 7 dbAnn
    { email := "ann@x", password := "WrongPass22" } annUser "bc$Secret123"
    (by decide) (by decide) (by decide) (by decide) (by decide)

/-- C7: email uniqueness through `register`. When the email already maps
to a user, `register` fails `BadRequestException('This email is already
registered.')` and creates nothing. Otherwise it creates exactly one user
row — role `CUSTOMER`, stored password the bcrypt hash (≠ the raw
password) — returns the public profile without any token, preserves
no-duplicate-emails, and a second identical `register` against the new
state always fails `DuplicateEmail` leaving it unchanged. -/
theorem C7_register_email_uniqueness (ext : Ext) (now : Nat) (db : Db)
    (r : RegisterAuthRequest)
    (hval : validREGISTER ext r = true) (hemail : r.email ≠ "")
    (hhash : ext.bhash r.password ≠ r.password) :
    (db.countUsersByEmail r.email ≠ 0 →
      register ext now db r
        = (.error (.badRequest "This email is already registered."), db)) ∧
    (∀ newU : User,
      newU = { id := db.nextUserId, name := r.name, email := r.email
               password := some (ext.bhash r.password), refreshToken := none
               image := none, role := "CUSTOMER"
               createdAt := now, updatedAt := now } →
      db.countUsersByEmail r.email = 0 →
      register ext now db r
          = (.ok { id := db.nextUserId, name := r.name, email := r.email
                   accessToken := none, refreshToken := none, image := none
                   role := "CUSTOMER", createdAt := now, updatedAt := now },
             { db with users := db.users ++ [newU]
                       nextUserId := db.nextUserId + 1 }) ∧
        newU.role = "CUSTOMER" ∧
        newU.password = some (ext.bhash r.password) ∧
        newU.password ≠ some r.password ∧
        ((db.users.map User.email).Nodup →
          ((db.users ++ [newU]).map User.email).Nodup) ∧
        register ext now
            { db with users := db.users ++ [newU]
                      nextUserId := db.nextUserId + 1 } r
          = (.error (.badRequest "This email is already registered."),
             { db with users := db.users ++ [newU]
                       nextUserId := db.nextUserId + 1 })) := by
  have hemail' : (r.email == "") = false := by simpa using hemail
  constructor
  · intro hcount
    have hcount' : (db.countUsersByEmail r.email != 0) = true := by
      simpa using hcount
    simp [register, checkExistingUserEmail, hval, hemail', hcount']
  · intro newU hnewU hcount
    have hcount' : (db.countUsersByEmail r.email != 0) = false := by
      simpa using hcount
    have hnotmem : r.email ∉ db.users.map User.email := by
      intro hmem
      obtain ⟨u, hu, hue⟩ := List.mem_map.mp hmem
      have humem : u ∈ db.users.filter (fun v => v.email == r.email) :=
        List.mem_filter.mpr ⟨hu, by simp [hue]⟩
      have : db.countUsersByEmail r.email ≠ 0 := by
        have hlen := List.length_pos.mpr (List.ne_nil_of_mem humem)
        simp only [Db.countUsersByEmail]
        omega
      exact this hcount
    refine ⟨?_, by simp [hnewU], by simp [hnewU], by simp [hnewU, hhash], ?_, ?_⟩
    · simp [register, checkExistingUserEmail, Db.createUser, hval, hemail',
        hcount', hnewU]
    · intro hnodup
      have : (db.users ++ [newU]).map User.email
          = db.users.map User.email ++ [r.email] := by
        simp [hnewU]
      rw [this, List.nodup_append]
      refine ⟨hnodup, List.nodup_singleton _, ?_⟩
      intro a ha hb
      simp only [List.mem_singleton] at hb
      subst hb
      exact hnotmem ha
    · have hcount2 :
          Db.countUsersByEmail
            { db with users := db.users ++ [newU], nextUserId := db.nextUserId + 1 }
            r.email ≠ 0 := by
        simp [Db.countUsersByEmail, List.filter_append, hnewU]
      have hcount2' :
          (Db.countUsersByEmail
            { db with users := db.users ++ [newU], nextUserId := db.nextUserId + 1 }
            r.email != 0) = true := by simpa using hcount2
      simp [register, checkExistingUserEmail, hval, hemail', hcount2']

/-- Witness for C7: registering Ann against the empty database creates
exactly her row and nothing else. -/
theorem C7_witness :
    register extT 0 dbEmpty { name := "Ann", email := "ann@x", password := "Secret123" }
      = (.ok { id := 1, name := "Ann", email := "ann@x"
               accessToken := none, refreshToken := none, image := none
               role := "CUSTOMER", createdAt := 0, updatedAt := 0 },
         { dbEmpty with users := dbEmpty.users ++ [annUser]
                        nextUserId := dbEmpty.nextUserId + 1 }) :=
  ((C7_register_email_uniqueness extT 0 dbEmpty
      { name := "Ann", email := "ann@x", password := "Secret123" }
      (by decide) (by decide) (by decide)).2 annUser (by decide) (by decide)).1

/-- C9: `AuthService.findUserById` — the lookup behind
`AuthController.googleAuthRedirect` — is not read-only: every successful
call mints a fresh refresh token, bcrypt-hashes it, and OVERWRITES the
user's stored refresh-token hash (so any previously stored hash — hence
any previously issued refresh token — is invalidated), while the redirect
handler places only the access token in a cookie. -/
theorem C9_google_lookup_rotates_hash (ext : Ext) (now : Nat) (u : User)
    (hid : u.id ≠ 0) (hemail : u.email ≠ "") (hrole : u.role ≠ "")
    (fresh : String)
    (hfresh : fresh = ext.jwtSign ⟨u.id, u.email, u.role⟩ now ext.jwtRefreshSecret "30d")
    (hfne : fresh ≠ "")
    (hchanged : some (ext.bhash fresh) ≠ u.refreshToken) :
    googleAuthRedirect ext now ⟨[u], [], u.id + 1, 1⟩ (some u.id)
      = (.ok { accessCookie :=
                 some (ext.jwtSign ⟨u.id, u.email, u.role⟩ now ext.jwtAccessSecret "15m")
               redirectUrl := ext.frontendUrl },
         ⟨[{ u with refreshToken := some (ext.bhash fresh), updatedAt := now }],
          [], u.id + 1, 1⟩) ∧
    ({ u with refreshToken := some (ext.bhash fresh), updatedAt := now }).refreshToken
      ≠ u.refreshToken := by
  subst hfresh
  have hid' : (u.id == 0) = false := by simpa using hid
  have hemail' : (u.email == "") = false := by simpa using hemail
  have hrole' : (u.role == "") = false := by simpa using hrole
  have hfne' : (ext.jwtSign ⟨u.id, u.email, u.role⟩ now ext.jwtRefreshSecret "30d" == "")
      = false := by simpa using hfne
  constructor
  · simp [googleAuthRedirect, findUserById, Db.findUserById?,
      generateAccessToken, generateRefreshToken, encrypt,
      Db.updateUserRefreshTokenById, handleErrorController,
      hid', hemail', hrole', hfne']
  · simpa using hchanged

/-- Witness for C9: the google redirect for Ann returns only an access
cookie while silently replacing her (previously null) stored hash. -/
theorem C9_witness :
    googleAuthRedirect extT 9 ⟨[annUser], [], 2, 1⟩ (some 1)
      = (.ok { accessCookie := some "AS|1|ann@x|CUSTOMER|9"
               redirectUrl := "http://localhost:3000" },
         ⟨[{ annUser with refreshToken := some "bc$RS|1|ann@x|CUSTOMER|9", updatedAt := 9 }],
          [], 2, 1⟩) ∧
    ({ annUser with refreshToken := some "bc$RS|1|ann@x|CUSTOMER|9", updatedAt := 9 }).refreshToken
      ≠ annUser.refreshToken :=
  C9_google_lookup_rotates_hash extT 9 annUser (by decide) (by decide) (by decide)
    "RS|1|ann@x|CUSTOMER|9" (by decide) (by decide) (by decide)

/-- C3: hash rotation invalidates the previous refresh token. Starting
from an account `u`, a first `login` at time `t1` issues refresh token
`r1` (stored as `bhash r1`, returned encrypted as `ec1`), a second
`login` at time `t2` issues `r2` whose hash REPLACES the stored one; a
subsequent `refreshAccessToken` presenting `ec1` then fails with
`UnauthorizedException('Invalid refresh token')` — the
`RefreshTokenMismatch` rejection — since `bcrypt.compare(r1, bhash r2)`
is false for the rotated-out token. -/
theorem C3_rotated_token_rejected (ext : Ext) (t1 t2 t3 : Nat)
    (u : User) (ph : String) (r : LoginAuthRequest)
    (hval : validLOGIN ext r = true) (hemail : r.email ≠ "")
    (hu : u.email = r.email) (hpw : u.password = some ph)
    (hcmp : ext.bcompare r.password ph = true)
    (hid : u.id ≠ 0) (hrole : u.role ≠ "")
    (r1 r2 ec1 : String)
    (hr1 : r1 = ext.jwtSign ⟨u.id, u.email, u.role⟩ t1 ext.jwtRefreshSecret "30d")
    (hr2 : r2 = ext.jwtSign ⟨u.id, u.email, u.role⟩ t2 ext.jwtRefreshSecret "30d")
    (hr1ne : r1 ≠ "") (hr2ne : r2 ≠ "")
    (hec1 : encrypt ext r1 = .ok ec1)
    (hdecrypt : decrypt ext ec1 = .ok r1)
    (hver : ext.jwtVerify r1 ext.jwtRefreshSecret = some ⟨u.id, u.email, u.role⟩)
    (hmismatch : ext.bcompare r1 (ext.bhash r2) = false) :
    login ext t1 ⟨[u], [], u.id + 1, 1⟩ r
      = (.ok { id := u.id, name := u.name, email := u.email
               accessToken :=
                 some (ext.jwtSign ⟨u.id, u.email, u.role⟩ t1 ext.jwtAccessSecret "15m")
               refreshToken := some ec1
               image := u.image, role := u.role
               createdAt := u.createdAt, updatedAt := u.updatedAt },
         ⟨[{ u with refreshToken := some (ext.bhash r1), updatedAt := t1 }], [], u.id + 1, 1⟩) ∧
    (login ext t2 ⟨[{ u with refreshToken := some (ext.bhash r1), updatedAt := t1 }], [], u.id + 1, 1⟩ r).2
      = ⟨[{ u with refreshToken := some (ext.bhash r2), updatedAt := t2 }], [], u.id + 1, 1⟩ ∧
    generateNewAccessToken ext t3
        ⟨[{ u with refreshToken := some (ext.bhash r2), updatedAt := t2 }], [], u.id + 1, 1⟩ ec1
      = (.error (.unauthorized "Invalid refresh token"),
         ⟨[{ u with refreshToken := some (ext.bhash r2), updatedAt := t2 }], [], u.id + 1, 1⟩) := by
  have hemail' : (r.email == "") = false := by simpa using hemail
  have hid' : (u.id == 0) = false := by simpa using hid
  have huemail : u.email ≠ "" := hu ▸ hemail
  have huemail' : (u.email == "") = false := by simpa using huemail
  have hrole' : (u.role == "") = false := by simpa using hrole
  have hr1ne' : (ext.jwtSign ⟨u.id, u.email, u.role⟩ t1 ext.jwtRefreshSecret "30d" == "")
      = false := by rw [← hr1]; simpa using hr1ne
  have hr2ne' : (ext.jwtSign ⟨u.id, u.email, u.role⟩ t2 ext.jwtRefreshSecret "30d" == "")
      = false := by rw [← hr2]; simpa using hr2ne
  have hec1ne : (ec1 == "") = false := by
    have : ec1 ≠ "" := by
      intro hz
      rw [hz] at hdecrypt
      simp [decrypt] at hdecrypt
    simpa using this
  have hec1' : ext.initialVector ++ ":"
      ++ ext.encBlock ext.cryptoAlgorithm ext.cryptoSecretKey ext.initialVector r1
        = ec1 := by
    have := hec1
    rw [encrypt, if_neg (by simpa using hr1ne)] at this
    exact (Except.ok.injEq _ _).mp this
  refine ⟨?_, ?_, ?_⟩
  · simp [login, findUserByEmail, Db.findUserByEmail?, generateAccessToken,
      generateRefreshToken, encrypt, Db.updateUserRefreshTokenByEmail,
      hval, hemail', ← hu, hpw, hcmp, hid', huemail', hrole', ← hr1, hr1ne, hec1']
  · simp [login, findUserByEmail, Db.findUserByEmail?, generateAccessToken,
      generateRefreshToken, encrypt, Db.updateUserRefreshTokenByEmail,
      hval, hemail', ← hu, hpw, hcmp, hid', huemail', hrole', ← hr2, hr2ne]
  · simp [generateNewAccessToken, Db.findUserById?, hec1ne, hdecrypt, hver,
      hmismatch]

/-- Witness for C3: Ann logs in at times 1 and 2; her time-1 encrypted
refresh token is then rejected with `'Invalid refresh token'`. -/
theorem C3_witness :
    generateNewAccessToken extT 3
        ⟨[{ annUser with refreshToken := some "bc$RS|1|ann@x|CUSTOMER|2", updatedAt := 2 }],
         [], 2, 1⟩
        ("ab12:" ++ String.mk (toHexChars "RS|1|ann@x|CUSTOMER|1".data))
      = (.error (.unauthorized "Invalid refresh token"),
         ⟨[{ annUser with refreshToken := some "bc$RS|1|ann@x|CUSTOMER|2", updatedAt := 2 }],
          [], 2, 1⟩) :=
  (C3_rotated_token_rejected extT 1 2 3 annUser "bc$Secret123"
    { email := "ann@x", password := "Secret123" }
    (by decide) (by decide) (by decide) (by decide) (by decide) (by decide) (by decide)
    "RS|1|ann@x|CUSTOMER|1" "RS|1|ann@x|CUSTOMER|2"
    ("ab12:" ++ String.mk (toHexChars "RS|1|ann@x|CUSTOMER|1".data))
    (by decide) (by decide) (by decide) (by decide) (by decide) (by decide)
    (by decide) (by decide)).2.2

end AstraByte
